import Mathlib

/-!
# TimeSwipe driver core — shallow embedding and verification

This file embeds the host-side acquisition core of the TimeSwipe driver
(`src/driver/src/timeswipe.cpp`) in Lean 4 and proves properties of its
data model (`SensorsData`), burst-delivery policy (`_pollerLoop`),
start/stop lifecycle (`TimeSwipeImpl::Start` / `Stop`), settings
request/response path (`Settings` / `_processSPIRequests`) and the
configuration setters.

Modelling conventions:
* C++ `float` sample values are idealized as exact rationals (`ℚ`); the
  claims proved about frames concern only lengths and element movement,
  never rounding.
* Stored calibration factors (gain / transmission), whose interesting
  behaviour is IEEE division by zero, are modelled by an extended value
  type `FVal` (finite rational, ±infinity, NaN) with an explicit
  division function.
* `size_t` arithmetic wraps modulo `2 ^ 64`; this is modelled explicitly
  where the source subtracts sizes (`SensorsData::erase_back`).
* Operations that are undefined behaviour in C++ (iterator arithmetic
  past the end in `erase_front`) return `Option`, with `none` marking
  the precondition violation.
* Each worker loop's body is embedded as a pure step function on the
  relevant state; a loop is the fold of its step over the finite trace
  of inputs it consumes.
-/

namespace TimeSwipe

/-- Sample values (C++ `float`), idealized as exact rationals. -/
abbrev Sample := ℚ

/-- `SensorsData` (`timeswipe.cpp:16-60`): a fixed 4-channel container of
per-channel sample sequences (`std::array`-of-`std::vector` with
`SENSORS = 4`, the board channel count; the `.cpp` itself addresses
exactly indices 0..3). -/
structure SensorsData where
  ch0 : List Sample
  ch1 : List Sample
  ch2 : List Sample
  ch3 : List Sample
deriving DecidableEq, Repr

namespace SensorsData

/-- `SensorsData::SensorsSize()`: the channel count constant. -/
def SensorsSize : Nat := 4

/-- `SensorsData::DataSize()`: `_data[0].size()` — the per-channel length,
read from channel 0. -/
def DataSize (d : SensorsData) : Nat := d.ch0.length

/-- `SensorsData::empty()`: `DataSize() == 0`. -/
def empty (d : SensorsData) : Bool := d.DataSize == 0

/-- `SensorsData::clear()`: clears every channel. -/
def clear (_ : SensorsData) : SensorsData := ⟨[], [], [], []⟩

/-- The default-constructed (empty) frame. -/
def mk0 : SensorsData := ⟨[], [], [], []⟩

/-- `SensorsData::append(SensorsData&&)`: moves the other frame's samples
onto the back of each channel (the moved-from source is then cleared;
value semantics make that implicit here). -/
def append (d o : SensorsData) : SensorsData :=
  ⟨d.ch0 ++ o.ch0, d.ch1 ++ o.ch1, d.ch2 ++ o.ch2, d.ch3 ++ o.ch3⟩

/-- The equal-channel-length invariant of the data model: all four
channels hold sequences of the same length. -/
def valid (d : SensorsData) : Prop :=
  d.ch1.length = d.ch0.length ∧ d.ch2.length = d.ch0.length ∧
    d.ch3.length = d.ch0.length

instance (d : SensorsData) : Decidable d.valid := by
  unfold valid; infer_instance

/-- `SensorsData::erase_front(num)`: erases `num` samples from the front
of each channel.  In C++ `begin() + num` past `end()` is undefined
behaviour; `none` marks that precondition violation. -/
def erase_front (d : SensorsData) (num : Nat) : Option SensorsData :=
  if num ≤ d.ch0.length ∧ num ≤ d.ch1.length ∧ num ≤ d.ch2.length ∧
      num ≤ d.ch3.length then
    some ⟨d.ch0.drop num, d.ch1.drop num, d.ch2.drop num, d.ch3.drop num⟩
  else
    none

/-- `size_t` modulus. -/
def USIZE : Nat := 2 ^ 64

/-- Wrapping `size_t` subtraction: the value of `a - b` in C++ unsigned
64-bit arithmetic (for `a, b < 2 ^ 64`). -/
def wrapSub (a b : Nat) : Nat := (((a : Int) - (b : Int)) % (USIZE : Int)).toNat

/-- `std::vector::resize(n)`: truncates to `n` elements or pads with
value-initialized samples (`0.0f`) up to `n`. -/
def resizeList (l : List Sample) (n : Nat) : List Sample :=
  if n ≤ l.length then l.take n else l ++ List.replicate (n - l.length) 0

/-- `SensorsData::erase_back(num)`: each channel is resized to
`size() - num`, where the subtraction is wrapping `size_t`
arithmetic. -/
def erase_back (d : SensorsData) (num : Nat) : SensorsData :=
  ⟨resizeList d.ch0 (wrapSub d.ch0.length num),
   resizeList d.ch1 (wrapSub d.ch1.length num),
   resizeList d.ch2 (wrapSub d.ch2.length num),
   resizeList d.ch3 (wrapSub d.ch3.length num)⟩

/-- Read one channel (`operator[]`, read side). -/
def getChannel (d : SensorsData) (i : Fin 4) : List Sample :=
  match i with
  | ⟨0, _⟩ => d.ch0
  | ⟨1, _⟩ => d.ch1
  | ⟨2, _⟩ => d.ch2
  | ⟨3, _⟩ => d.ch3

/-- Overwrite one channel through the mutable reference returned by
`operator[]`. -/
def setChannel (d : SensorsData) (i : Fin 4) (l : List Sample) : SensorsData :=
  match i with
  | ⟨0, _⟩ => { d with ch0 := l }
  | ⟨1, _⟩ => { d with ch1 := l }
  | ⟨2, _⟩ => { d with ch2 := l }
  | ⟨3, _⟩ => { d with ch3 := l }

/-- `d[i].push_back(x)`: mutation of a single channel through the mutable
reference returned by `SensorsData::operator[]`. -/
def pushSample (d : SensorsData) (i : Fin 4) (x : Sample) : SensorsData :=
  d.setChannel i (d.getChannel i ++ [x])

end SensorsData

/-- Sum of the per-channel lengths (`DataSize`) of a list of frames. -/
def sumSizes (l : List SensorsData) : Nat :=
  (l.map SensorsData.DataSize).sum

theorem resizeList_length (l : List Sample) (n : Nat) :
    (SensorsData.resizeList l n).length = n := by
  unfold SensorsData.resizeList
  split
  · simpa using by omega
  · simp; omega

theorem append_DataSize (d o : SensorsData) :
    (d.append o).DataSize = d.DataSize + o.DataSize := by
  simp [SensorsData.append, SensorsData.DataSize]

theorem append_valid {d o : SensorsData} (hd : d.valid) (ho : o.valid) :
    (d.append o).valid := by
  obtain ⟨h1, h2, h3⟩ := hd
  obtain ⟨g1, g2, g3⟩ := ho
  simp [SensorsData.append, SensorsData.valid, *]

theorem append_mk0_left {d : SensorsData} : SensorsData.mk0.append d = d := by
  simp [SensorsData.append, SensorsData.mk0]

/-! ## Burst policy (`_pollerLoop`, `timeswipe.cpp:381-393`) -/

/-- One delivery decision of `_pollerLoop` (`timeswipe.cpp:381-393`):
given the burst threshold, the current `burstBuffer`, the incoming
merged frame `records_ptr` and this iteration's error count, either the
incoming frame is handed to the callback directly (fast path: buffer
empty and the incoming frame already meets the threshold), or it is
appended into the buffer, which is flushed and cleared when it meets
the threshold.  Returns the frame handed to the callback, if any, and
the new `burstBuffer`. -/
def burstStep (burstSize : Nat) (burstBuffer incoming : SensorsData)
    (errors : Nat) : Option (SensorsData × Nat) × SensorsData :=
  if burstBuffer.empty && decide (burstSize ≤ incoming.DataSize) then
    (some (incoming, errors), burstBuffer)
  else
    let b := burstBuffer.append incoming
    if burstSize ≤ b.DataSize then (some (b, errors), b.clear)
    else (none, b)

/-- The flush executed after `_pollerLoop`'s main loop exits
(`timeswipe.cpp:395-398`): residual `burstBuffer` content is delivered
once with error count `0` and the buffer cleared. -/
def pollerExitFlush (burstBuffer : SensorsData) :
    Option (SensorsData × Nat) × SensorsData :=
  if burstBuffer.DataSize ≠ 0 then (some (burstBuffer, 0), burstBuffer.clear)
  else (none, burstBuffer)

/-- The burst phase of `_pollerLoop` over the finite trace of merged
frames (with their error counts) that the loop consumes before the work
flag clears: folds `burstStep`, collecting the frames handed to the
callback. -/
def pollerRun (burstSize : Nat) :
    SensorsData → List (SensorsData × Nat) →
      List (SensorsData × Nat) × SensorsData
  | acc, [] => ([], acc)
  | acc, (inc, err) :: rest =>
    let s := burstStep burstSize acc inc err
    let r := pollerRun burstSize s.2 rest
    (s.1.toList ++ r.1, r.2)

/-- The whole delivery behaviour of `_pollerLoop`: the main loop's
deliveries followed by the exit flush. -/
def pollerLoopModel (burstSize : Nat) (inputs : List (SensorsData × Nat)) :
    List (SensorsData × Nat) :=
  let r := pollerRun burstSize SensorsData.mk0 inputs
  r.1 ++ (pollerExitFlush r.2).1.toList

/-! ## Idealized floating-point values for calibration factors -/

/-- An idealized C++ `double`/`float` value: a finite value (taken exact,
as a rational — the claims about calibration factors allow
floating-point tolerance, so rounding is not modelled), positive or
negative infinity, or NaN.  There is no negative zero. -/
inductive FVal where
  | fin (q : ℚ)
  | inf
  | neginf
  | nan
deriving DecidableEq, Repr

namespace FVal

/-- IEEE-style division on idealized values; in particular a positive
finite numerator divided by (positive) zero yields `inf`, and the
operation is total — it never faults. -/
def div : FVal → FVal → FVal
  | fin a, fin b =>
    if b = 0 then (if a = 0 then nan else if 0 < a then inf else neginf)
    else fin (a / b)
  | fin _, inf => fin 0
  | fin _, neginf => fin 0
  | fin _, nan => nan
  | inf, fin b => if 0 ≤ b then inf else neginf
  | inf, _ => nan
  | neginf, fin b => if 0 ≤ b then neginf else inf
  | neginf, _ => nan
  | nan, _ => nan

/-- The literal `1.0`. -/
def one : FVal := fin 1

end FVal

/-! ## Engine state (`TimeSwipeImpl`) -/

/-- A board event (`BoardEvents`, consumed at `timeswipe.cpp:336-341`):
whether the button state changed and the running press counter. -/
structure BoardEvents where
  button : Bool
  buttonCounter : Nat
deriving DecidableEq, Repr

/-- The mutable fields of the `RecordReader Rec` member that the facade
setters write (`sensorType`, `offset[4]`, `gain[4]`, `transmission[4]`)
plus whether the reader has been started. -/
structure RecFields where
  sensorType : Int
  offset0 : Int
  offset1 : Int
  offset2 : Int
  offset3 : Int
  gain0 : FVal
  gain1 : FVal
  gain2 : FVal
  gain3 : FVal
  transmission0 : FVal
  transmission1 : FVal
  transmission2 : FVal
  transmission3 : FVal
  running : Bool
deriving DecidableEq, Repr

/-- Initial `RecordReader` fields (gains and transmissions default to
factor 1, offsets to 0, reader stopped). -/
def RecFields.init : RecFields :=
  ⟨0, 0, 0, 0, 0, .fin 1, .fin 1, .fin 1, .fin 1,
   .fin 1, .fin 1, .fin 1, .fin 1, false⟩

/-- Per-instance state of one `TimeSwipeImpl` object: the reader fields,
the three SPSC queues plus the event queue (as FIFO lists, front =
consumer end), the error counter, the burst accumulator and threshold,
the registered callbacks (identified abstractly by numbers), the
resampler slot (target and base rate of the installed
`TimeSwipeResampler`, if any), the work flag, and the number of
unjoined service threads. -/
structure ImplState where
  Rec : RecFields
  recordBuffer : List SensorsData
  recordErrors : Nat
  burstBuffer : SensorsData
  burstSize : Nat
  inSPI : List (Nat × String)
  outSPI : List (String × String)
  events : List BoardEvents
  onButtonCb : Option Nat
  onErrorCb : Option Nat
  resampler : Option (Int × Int)
  work : Bool
  threads : Nat
deriving DecidableEq, Repr

/-- A freshly constructed `TimeSwipeImpl`. -/
def ImplState.init : ImplState :=
  ⟨RecFields.init, [], 0, SensorsData.mk0, 0, [], [], [], none, none,
   none, false, 0⟩

/-- Process-wide state: the global `startedInstance` pointer (instances
identified by `Nat`) and the per-instance states. -/
structure SysState where
  startedInstance : Option Nat
  impls : Nat → ImplState

/-- The initial process state: no instance started, all instances
freshly constructed. -/
def SysState.init : SysState := ⟨none, fun _ => ImplState.init⟩

/-- Replace instance `i`'s state. -/
def SysState.setImpl (s : SysState) (i : Nat) (e : ImplState) : SysState :=
  ⟨s.startedInstance, Function.update s.impls i e⟩

/-- `TimeSwipeImpl::BASE_SAMPLE_RATE`. -/
def BASE_SAMPLE_RATE : Int := 48000

/-- Capacity of the `_inSPI` / `_outSPI` queues. -/
def SPI_CAPACITY : Nat := 1024

/-- Capacity of the `_events` queue. -/
def EVENTS_CAPACITY : Nat := 128

/-- `boost::lockfree::spsc_queue::push`: appends to the back if the
queue is below capacity, otherwise drops the element (the push reports
failure; every call site here ignores that report). -/
def pushBounded {α : Type} (cap : Nat) (q : List α) (x : α) : List α :=
  if q.length < cap then q ++ [x] else q

/-! ## Engine operations (`timeswipe.cpp:127-264, 401-403`) -/

/-- `TimeSwipeImpl::SetBridge` (`timeswipe.cpp:127-129`). -/
def setBridge (bridge : Int) (e : ImplState) : ImplState :=
  { e with Rec := { e.Rec with sensorType := bridge } }

/-- `TimeSwipeImpl::SetSensorOffsets` (`timeswipe.cpp:131-136`). -/
def setSensorOffsets (o1 o2 o3 o4 : Int) (e : ImplState) : ImplState :=
  { e with Rec := { e.Rec with
      offset0 := o1, offset1 := o2, offset2 := o3, offset3 := o4 } }

/-- `TimeSwipeImpl::SetSensorGains` (`timeswipe.cpp:138-143`): each
stored gain factor is `1.0 / gain_i`. -/
def setSensorGains (g1 g2 g3 g4 : FVal) (e : ImplState) : ImplState :=
  { e with Rec := { e.Rec with
      gain0 := FVal.div FVal.one g1, gain1 := FVal.div FVal.one g2,
      gain2 := FVal.div FVal.one g3, gain3 := FVal.div FVal.one g4 } }

/-- `TimeSwipeImpl::SetSensorTransmissions` (`timeswipe.cpp:145-150`):
each stored transmission factor is `1.0 / trans_i`. -/
def setSensorTransmissions (t1 t2 t3 t4 : FVal) (e : ImplState) : ImplState :=
  { e with Rec := { e.Rec with
      transmission0 := FVal.div FVal.one t1,
      transmission1 := FVal.div FVal.one t2,
      transmission2 := FVal.div FVal.one t3,
      transmission3 := FVal.div FVal.one t4 } }

/-- `TimeSwipeImpl::SetBurstSize` (`timeswipe.cpp:401-403`). -/
def setBurstSize (burst : Nat) (e : ImplState) : ImplState :=
  { e with burstSize := burst }

/-- `TimeSwipeImpl::SetSampleRate` (`timeswipe.cpp:153-159`): rejects
rates outside `[1, BASE_SAMPLE_RATE]` without touching the resampler;
otherwise drops any installed resampler and, when the rate differs from
the base rate, installs `TimeSwipeResampler(rate, BASE_SAMPLE_RATE)`. -/
def setSampleRate (rate : Int) (e : ImplState) : Bool × ImplState :=
  if rate < 1 ∨ rate > BASE_SAMPLE_RATE then (false, e)
  else if rate ≠ BASE_SAMPLE_RATE then
    (true, { e with resampler := some (rate, BASE_SAMPLE_RATE) })
  else
    (true, { e with resampler := none })

/-- `TimeSwipeImpl::Start` (`timeswipe.cpp:161-191`): under the global
lock, fails if this instance's work flag is set or any instance is
registered; fails if the PID-file lock fails (`pidOk`, an external
outcome); registers this instance; an EEPROM read failure (`eepromOk`)
is only logged.  Then sets up and starts the reader, sets the work
flag and spawns the three service threads. -/
def startImpl (i : Nat) (pidOk : Bool) (s : SysState) : Bool × SysState :=
  let e := s.impls i
  if e.work || s.startedInstance.isSome then (false, s)
  else if !pidOk then (false, s)
  else
    (true, { startedInstance := some i,
             impls := Function.update s.impls i
               { e with Rec := { e.Rec with running := true },
                        work := true, threads := e.threads + 3 } })

/-- `TimeSwipeImpl::Stop` (`timeswipe.cpp:193-215`): under the global
lock, fails if this instance's work flag is clear or the registered
instance is not this one; otherwise clears the registration, clears the
work flag, joins every joinable service thread, drains `recordBuffer`,
`_inSPI` and `_outSPI`, and stops the reader.  (The `_events` queue is
not drained.) -/
def stopImpl (i : Nat) (s : SysState) : Bool × SysState :=
  let e := s.impls i
  if !e.work || s.startedInstance ≠ some i then (false, s)
  else
    (true, { startedInstance := none,
             impls := Function.update s.impls i
               { e with work := false, threads := 0,
                        recordBuffer := [], inSPI := [], outSPI := [],
                        Rec := { e.Rec with running := false } } })

/-- `TimeSwipeImpl::_isStarted` (`timeswipe.cpp:245-248`): whether the
global `startedInstance` pointer is non-null. -/
def isStartedGlobal (s : SysState) : Bool := s.startedInstance.isSome

/-- `TimeSwipeImpl::onButton` (`timeswipe.cpp:217-221`): rejected while
`_isStarted()`; otherwise stores the callback. -/
def onButtonImpl (i : Nat) (cb : Nat) (s : SysState) : Bool × SysState :=
  if isStartedGlobal s then (false, s)
  else (true, s.setImpl i { s.impls i with onButtonCb := some cb })

/-- `TimeSwipeImpl::onError` (`timeswipe.cpp:223-227`): rejected while
`_isStarted()`; otherwise stores the callback. -/
def onErrorImpl (i : Nat) (cb : Nat) (s : SysState) : Bool × SysState :=
  if isStartedGlobal s then (false, s)
  else (true, s.setImpl i { s.impls i with onErrorCb := some cb })

/-- One instance is in the Started lifecycle state: its work flag is set
and it is the registered started instance. -/
def EngineStarted (s : SysState) (i : Nat) : Prop :=
  (s.impls i).work = true ∧ s.startedInstance = some i

instance (s : SysState) (i : Nat) : Decidable (EngineStarted s i) := by
  unfold EngineStarted; infer_instance

/-- `TimeSwipeImpl::_receiveEvents` (`timeswipe.cpp:250-255`): polls the
board for one event (an external outcome, passed as `ev`) and, if its
button flag is set, pushes it onto `_events`. -/
def receiveEvents (ev : BoardEvents) (e : ImplState) : ImplState :=
  if ev.button then
    { e with events := pushBounded EVENTS_CAPACITY e.events ev }
  else e

/-! ## Settings request/response (`Settings`, `_processSPIRequests`) -/

/-- Dispatch of one request in `_processSPIRequests`
(`timeswipe.cpp:261`): a nonzero direction flag selects the hardware
transport's set-settings operation, zero its get-settings operation.
The transport itself (`readBoardSetSettings` / `readBoardGetSettings`)
is an external collaborator, passed as the functions `execGet` /
`execSet`, each returning a (response, error) pair. -/
def dispatchSPI (execGet execSet : String → String × String)
    (r : Nat × String) : String × String :=
  if r.1 ≠ 0 then execSet r.2 else execGet r.2

/-- `TimeSwipeImpl::_processSPIRequests` (`timeswipe.cpp:257-264`):
drains `_inSPI` front to back, dispatching each request and pushing its
(response, error) pair onto `_outSPI`. -/
def processSPIRequests (execGet execSet : String → String × String)
    (e : ImplState) : ImplState :=
  { e with inSPI := [],
           outSPI := e.inSPI.foldl
             (fun q r => pushBounded SPI_CAPACITY q
               (dispatchSPI execGet execSet r)) e.outSPI }

/-- `TimeSwipeImpl::Settings` (`timeswipe.cpp:229-243`): pushes the
request onto `_inSPI`; when the work flag is clear, services the
command queue in-line on the calling thread; then polls `_outSPI` for
the response.  `none` models the call never returning (the pop loop
spinning on an outbound queue no background loop will ever fill). -/
def settingsCall (execGet execSet : String → String × String)
    (set_or_get : Nat) (request : String) (e : ImplState) :
    Option ((String × String) × ImplState) :=
  let e1 := { e with
    inSPI := pushBounded SPI_CAPACITY e.inSPI (set_or_get, request) }
  let e2 := if e.work then e1 else processSPIRequests execGet execSet e1
  match e2.outSPI with
  | [] => none
  | r :: rest => some ((r.1, r.2), { e2 with outSPI := rest })

/-- A sequence of `Settings` calls issued one after another on the
calling thread. -/
def runSettings (execGet execSet : String → String × String) :
    ImplState → List (Nat × String) →
      Option (List (String × String) × ImplState)
  | e, [] => some ([], e)
  | e, (d, req) :: rest =>
    match settingsCall execGet execSet d req e with
    | none => none
    | some (resp, e1) =>
      match runSettings execGet execSet e1 rest with
      | none => none
      | some (resps, ef) => some (resp :: resps, ef)

/-! ## Operation traces over the process state -/

/-- The facade-level operations a process may perform on its engine
instances (hardware outcomes such as the PID-lock result, board events
and the SPI transport are inputs of the respective operations). -/
inductive Op where
  | start (i : Nat) (pidOk : Bool)
  | stop (i : Nat)
  | bridge (i : Nat) (b : Int)
  | offsets (i : Nat) (o1 o2 o3 o4 : Int)
  | gains (i : Nat) (g1 g2 g3 g4 : FVal)
  | transmissions (i : Nat) (t1 t2 t3 t4 : FVal)
  | burst (i : Nat) (b : Nat)
  | rate (i : Nat) (r : Int)
  | button (i : Nat) (cb : Nat)
  | error (i : Nat) (cb : Nat)
  | recvEvent (i : Nat) (ev : BoardEvents)

/-- Effect of one operation on the process state. -/
def stepOp (s : SysState) : Op → SysState
  | .start i pidOk => (startImpl i pidOk s).2
  | .stop i => (stopImpl i s).2
  | .bridge i b => s.setImpl i (setBridge b (s.impls i))
  | .offsets i o1 o2 o3 o4 => s.setImpl i (setSensorOffsets o1 o2 o3 o4 (s.impls i))
  | .gains i g1 g2 g3 g4 => s.setImpl i (setSensorGains g1 g2 g3 g4 (s.impls i))
  | .transmissions i t1 t2 t3 t4 =>
    s.setImpl i (setSensorTransmissions t1 t2 t3 t4 (s.impls i))
  | .burst i b => s.setImpl i (setBurstSize b (s.impls i))
  | .rate i r => s.setImpl i (setSampleRate r (s.impls i)).2
  | .button i cb => (onButtonImpl i cb s).2
  | .error i cb => (onErrorImpl i cb s).2
  | .recvEvent i ev => s.setImpl i (receiveEvents ev (s.impls i))

/-- The process state after a trace of operations from process start. -/
def runOps (ops : List Op) : SysState := ops.foldl stepOp SysState.init

/-- The single-instance registration invariant: any instance whose work
flag is set is the registered started instance. -/
def RegInv (s : SysState) : Prop :=
  ∀ i : Nat, (s.impls i).work = true → s.startedInstance = some i

/-! ## Burst-policy theorems -/

theorem clear_eq_mk0 (d : SensorsData) : d.clear = SensorsData.mk0 := rfl

/-- If a valid frame has per-channel length 0, it is the empty frame. -/
theorem valid_size_zero_eq_mk0 {acc : SensorsData} (hacc : acc.valid)
    (h0 : acc.DataSize = 0) : acc = SensorsData.mk0 := by
  obtain ⟨a0, a1, a2, a3⟩ := acc
  obtain ⟨v1, v2, v3⟩ := hacc
  simp only [SensorsData.DataSize] at h0 v1 v2 v3
  simp only [SensorsData.mk0, SensorsData.mk.injEq]
  exact ⟨List.length_eq_zero.mp h0,
    List.length_eq_zero.mp (by omega),
    List.length_eq_zero.mp (by omega),
    List.length_eq_zero.mp (by omega)⟩

/-- Characterization of `burstStep` by the accumulated length. -/
theorem burstStep_eq (B : Nat) (acc inc : SensorsData) (err : Nat) :
    burstStep B acc inc err =
      if acc.DataSize = 0 ∧ B ≤ inc.DataSize then (some (inc, err), acc)
      else if B ≤ acc.DataSize + inc.DataSize then
        (some (acc.append inc, err), SensorsData.mk0)
      else (none, acc.append inc) := by
  unfold burstStep SensorsData.empty
  by_cases h0 : acc.DataSize = 0
  · by_cases hB : B ≤ inc.DataSize
    · simp [h0, hB]
    · simp [h0, hB, append_DataSize, clear_eq_mk0]
  · simp [h0, append_DataSize, clear_eq_mk0]

/-- Size bookkeeping of one `burstStep`: what is delivered plus what
remains buffered equals what was buffered plus what came in. -/
theorem burstStep_sizes (B : Nat) (acc inc : SensorsData) (err : Nat) :
    sumSizes (((burstStep B acc inc err).1.toList).map Prod.fst) +
        (burstStep B acc inc err).2.DataSize =
      acc.DataSize + inc.DataSize := by
  rw [burstStep_eq]
  by_cases h1 : acc.DataSize = 0 ∧ B ≤ inc.DataSize
  · rw [if_pos h1]
    simp [sumSizes]
    omega
  · rw [if_neg h1]
    by_cases h2 : B ≤ acc.DataSize + inc.DataSize
    · rw [if_pos h2]
      simp [sumSizes, append_DataSize, SensorsData.mk0,
        SensorsData.DataSize, SensorsData.append]
    · rw [if_neg h2]
      simp [sumSizes, append_DataSize]

theorem sumSizes_append (a b : List SensorsData) :
    sumSizes (a ++ b) = sumSizes a + sumSizes b := by
  simp [sumSizes]

/-- Size bookkeeping of the main loop of `_pollerLoop`. -/
theorem pollerRun_sizes (B : Nat) (acc : SensorsData)
    (inputs : List (SensorsData × Nat)) :
    sumSizes ((pollerRun B acc inputs).1.map Prod.fst) +
        (pollerRun B acc inputs).2.DataSize =
      acc.DataSize + sumSizes (inputs.map Prod.fst) := by
  induction inputs generalizing acc with
  | nil => simp [pollerRun, sumSizes]
  | cons p rest ih =>
    obtain ⟨inc, err⟩ := p
    have hstep := burstStep_sizes B acc inc err
    have hrest := ih (burstStep B acc inc err).2
    simp only [pollerRun, List.map_append, sumSizes_append]
    simp only [List.map_cons, sumSizes, List.map_map, List.sum_cons]
      at hstep hrest ⊢
    omega

/-- C1 (burst policy, `timeswipe.cpp:381-393`): with an empty
accumulator and an incoming frame meeting the threshold the incoming
frame is delivered directly; otherwise the incoming frame is appended
and the whole accumulator is delivered and cleared exactly when it
meets the threshold; hence a delivery happens exactly when the length
accumulated since the last delivery reaches the threshold, and the
delivered frame's length is the whole accumulated length. -/
theorem burst_policy (B : Nat) (acc inc : SensorsData) (err : Nat)
    (hacc : acc.valid) :
    (acc.DataSize = 0 → B ≤ inc.DataSize →
      burstStep B acc inc err = (some (inc, err), acc)) ∧
    (¬(acc.DataSize = 0 ∧ B ≤ inc.DataSize) →
      burstStep B acc inc err =
        (if B ≤ (acc.append inc).DataSize then
          (some (acc.append inc, err), SensorsData.mk0)
         else (none, acc.append inc))) ∧
    ((burstStep B acc inc err).1.isSome ↔ B ≤ acc.DataSize + inc.DataSize) ∧
    (∀ f e2, (burstStep B acc inc err).1 = some (f, e2) →
      f.DataSize = acc.DataSize + inc.DataSize ∧ e2 = err ∧
        f = acc.append inc) := by
  rw [burstStep_eq]
  by_cases h1 : acc.DataSize = 0 ∧ B ≤ inc.DataSize
  · obtain ⟨h0, hB⟩ := h1
    have h1' : acc.DataSize = 0 ∧ B ≤ inc.DataSize := ⟨h0, hB⟩
    have hmk : acc = SensorsData.mk0 := valid_size_zero_eq_mk0 hacc h0
    rw [if_pos h1']
    refine ⟨fun _ _ => rfl, fun hne => absurd h1' hne, ?_, ?_⟩
    · simp
      omega
    · intro f e2 hf
      simp at hf
      obtain ⟨hf1, hf2⟩ := hf
      subst hf1; subst hf2
      refine ⟨by omega, rfl, ?_⟩
      rw [hmk, append_mk0_left]
  · rw [if_neg h1]
    by_cases h2 : B ≤ acc.DataSize + inc.DataSize
    · rw [if_pos h2]
      refine ⟨fun h0 hB => absurd ⟨h0, hB⟩ h1,
        fun _ => by rw [append_DataSize, if_pos h2], ?_, ?_⟩
      · simpa using h2
      · intro f e2 hf
        simp at hf
        obtain ⟨hf1, hf2⟩ := hf
        subst hf1; subst hf2
        exact ⟨append_DataSize acc inc, rfl, rfl⟩
    · rw [if_neg h2]
      refine ⟨fun h0 hB => absurd ⟨h0, hB⟩ h1,
        fun _ => by rw [append_DataSize, if_neg h2], ?_, ?_⟩
      · simpa using h2
      · intro f e2 hf
        simp at hf

/-- Witness for `burst_policy` at a concrete input: with an empty
accumulator, threshold 2 and an incoming frame of length 2, the
incoming frame is delivered directly. -/
theorem burst_policy_witness :
    SensorsData.valid SensorsData.mk0 ∧
    burstStep 2 SensorsData.mk0 ⟨[1, 2], [3, 4], [5, 6], [7, 8]⟩ 5 =
      (some ((⟨[1, 2], [3, 4], [5, 6], [7, 8]⟩ : SensorsData), 5),
        SensorsData.mk0) :=
  ⟨by decide,
    (burst_policy 2 SensorsData.mk0 ⟨[1, 2], [3, 4], [5, 6], [7, 8]⟩ 5
      (by decide)).1 (by decide) (by decide)⟩

/-- C4 (flush on stop, `timeswipe.cpp:395-398`): when the deliver loop
exits, residual non-empty burst-accumulator content is delivered
exactly once with error count 0 and the accumulator cleared, an empty
accumulator produces no delivery, and across the whole loop no sample
is lost: the delivered lengths sum to the input lengths. -/
theorem flush_on_stop (B : Nat) (acc : SensorsData)
    (inputs : List (SensorsData × Nat)) :
    (acc.DataSize ≠ 0 →
      pollerExitFlush acc = (some (acc, 0), SensorsData.mk0)) ∧
    (acc.DataSize = 0 → pollerExitFlush acc = (none, acc)) ∧
    sumSizes ((pollerLoopModel B inputs).map Prod.fst) =
      sumSizes (inputs.map Prod.fst) := by
  refine ⟨fun h => by rw [pollerExitFlush, if_pos h, clear_eq_mk0],
    fun h => by simp [pollerExitFlush, h], ?_⟩
  have h := pollerRun_sizes B SensorsData.mk0 inputs
  unfold pollerLoopModel
  simp only [List.map_append, sumSizes_append]
  by_cases hz : (pollerRun B SensorsData.mk0 inputs).2.DataSize = 0
  · rw [pollerExitFlush, if_neg (by omega)]
    simp only [Option.toList_none, List.map_nil]
    have hmk : SensorsData.mk0.DataSize = 0 := rfl
    simp only [sumSizes, List.map_nil, List.sum_nil] at h ⊢
    omega
  · rw [pollerExitFlush, if_pos hz]
    have hmk : SensorsData.mk0.DataSize = 0 := rfl
    simp only [Option.toList_some, List.map_cons, List.map_nil]
    simp only [sumSizes, List.map_cons, List.map_nil, List.sum_cons,
      List.sum_nil] at h ⊢
    omega

/-- Witness for `flush_on_stop` at a concrete input: a residual
one-sample accumulator is flushed with error count 0. -/
theorem flush_on_stop_witness :
    SensorsData.DataSize ⟨[1], [2], [3], [4]⟩ ≠ 0 ∧
    pollerExitFlush ⟨[1], [2], [3], [4]⟩ =
      (some ((⟨[1], [2], [3], [4]⟩ : SensorsData), 0), SensorsData.mk0) :=
  ⟨by decide, (flush_on_stop 7 ⟨[1], [2], [3], [4]⟩ []).1 (by decide)⟩

/-! ## Stop lifecycle theorems -/

/-- C2 (amended; `Stop`, `timeswipe.cpp:193-215`): `Stop` returns false
leaving the state unchanged when the caller's work flag is clear or the
caller is not the registered started instance; on success it clears the
global registration, clears the work flag, joins all service threads,
drains the frame, command-request and command-response channels, stops
the hardware reader and returns true — but the events channel is left
undrained, and other instances are untouched. -/
theorem stop_behavior (s : SysState) (i : Nat) :
    (¬((s.impls i).work = true ∧ s.startedInstance = some i) →
      stopImpl i s = (false, s)) ∧
    ((s.impls i).work = true → s.startedInstance = some i →
      (stopImpl i s).1 = true ∧
      (stopImpl i s).2.startedInstance = none ∧
      ((stopImpl i s).2.impls i).work = false ∧
      ((stopImpl i s).2.impls i).threads = 0 ∧
      ((stopImpl i s).2.impls i).recordBuffer = [] ∧
      ((stopImpl i s).2.impls i).inSPI = [] ∧
      ((stopImpl i s).2.impls i).outSPI = [] ∧
      ((stopImpl i s).2.impls i).Rec.running = false ∧
      ((stopImpl i s).2.impls i).events = (s.impls i).events ∧
      (∀ j, j ≠ i → (stopImpl i s).2.impls j = s.impls j)) := by
  constructor
  · intro h
    unfold stopImpl
    by_cases hw : (s.impls i).work
    · have hreg : s.startedInstance ≠ some i := fun hr => h ⟨hw, hr⟩
      simp [hw, hreg]
    · simp [hw]
  · intro hw hreg
    unfold stopImpl
    simp only [hw, hreg, Bool.not_true, ne_eq, not_true_eq_false,
      Bool.false_or, if_false, or_false]
    refine ⟨rfl, rfl, ?_⟩
    simp [Function.update_same]
    intro j hj
    rw [Function.update_noteq hj]

/-- Counterexample to C2 as stated: from a reachable state in which a
button event is queued, a successful `Stop` leaves the events channel
non-empty — in-flight events are not discarded. -/
theorem stop_events_counterexample :
    (stopImpl 0 (runOps [Op.start 0 true, Op.recvEvent 0 ⟨true, 7⟩])).1 =
        true ∧
      ((stopImpl 0
            (runOps [Op.start 0 true,
              Op.recvEvent 0 ⟨true, 7⟩])).2.impls 0).events =
        [⟨true, 7⟩] := by
  constructor <;> rfl

/-- Witness for `stop_behavior` at a concrete input: stopping the
started instance 0 succeeds and clears the global registration. -/
theorem stop_behavior_witness :
    (stopImpl 0 (runOps [Op.start 0 true])).1 = true ∧
    (stopImpl 0 (runOps [Op.start 0 true])).2.startedInstance = none := by
  have h := (stop_behavior (runOps [Op.start 0 true]) 0).2
    (by decide) (by decide)
  exact ⟨h.1, h.2.1⟩

/-! ## Single-instance enforcement -/

/-- The registration invariant holds initially. -/
theorem regInv_init : RegInv SysState.init := by
  intro i h
  simp [SysState.init, ImplState.init] at h

/-- States that register instance `i` satisfy the invariant when no
other instance has its work flag set. -/
theorem regInv_point (f : Nat → ImplState) (i : Nat) (e : ImplState)
    (hothers : ∀ j, j ≠ i → (f j).work = false) :
    RegInv ⟨some i, Function.update f i e⟩ := by
  intro j hj
  by_cases hij : j = i
  · subst hij; rfl
  · exfalso
    have hj' : (Function.update f i e j).work = true := hj
    rw [Function.update_noteq hij, hothers j hij] at hj'
    exact Bool.false_ne_true hj'

/-- Unregistered states satisfy the invariant when no instance has its
work flag set. -/
theorem regInv_noneState (f : Nat → ImplState)
    (hall : ∀ j, (f j).work = false) : RegInv ⟨none, f⟩ := by
  intro j hj
  have hj' : (f j).work = true := hj
  rw [hall j] at hj'
  exact absurd hj' (Bool.false_ne_true)

/-- Replacing one instance's state without touching its work flag
preserves the invariant. -/
theorem regInv_setImpl (s : SysState) (h : RegInv s) (i : Nat)
    (e : ImplState) (hwork : e.work = (s.impls i).work) :
    RegInv (s.setImpl i e) := by
  intro j hj
  have hj' : (Function.update s.impls i e j).work = true := hj
  show s.startedInstance = some j
  by_cases hij : j = i
  · subst hij
    rw [Function.update_same] at hj'
    exact h j (hwork ▸ hj')
  · rw [Function.update_noteq hij] at hj'
    exact h j hj'

/-- Every operation preserves the registration invariant. -/
theorem regInv_step (s : SysState) (h : RegInv s) (op : Op) :
    RegInv (stepOp s op) := by
  cases op with
  | start i pidOk =>
    simp only [stepOp]
    unfold startImpl
    by_cases hguard : (s.impls i).work || s.startedInstance.isSome
    · simp only [hguard, if_true]
      exact h
    · by_cases hpid : pidOk
      · simp only [hguard, hpid, Bool.not_true, if_false,
          Bool.false_eq_true]
        apply regInv_point
        intro j hij
        cases hb : (s.impls j).work
        · rfl
        · exfalso
          have hst := h j hb
          have hsome : s.startedInstance.isSome = true := by
            rw [hst]; rfl
          simp only [Bool.or_eq_true] at hguard
          exact hguard (Or.inr hsome)
      · simp only [hguard, hpid, Bool.not_false, if_true]
        exact h
  | stop i =>
    simp only [stepOp]
    unfold stopImpl
    by_cases hguard :
        !(s.impls i).work || decide (s.startedInstance ≠ some i)
    · simp only [hguard, if_true]
      exact h
    · simp only [hguard, Bool.false_eq_true, if_false]
      apply regInv_noneState
      intro j
      simp only [Bool.or_eq_true, Bool.not_eq_true', decide_eq_true_eq,
        not_or, not_not] at hguard
      by_cases hij : j = i
      · subst hij
        rw [Function.update_same]
      · rw [Function.update_noteq hij]
        cases hb : (s.impls j).work
        · rfl
        · exfalso
          have hji := h j hb
          rw [hguard.2] at hji
          exact hij (Option.some_injective _ hji).symm
  | bridge i b => exact regInv_setImpl s h i _ rfl
  | offsets i o1 o2 o3 o4 => exact regInv_setImpl s h i _ rfl
  | gains i g1 g2 g3 g4 => exact regInv_setImpl s h i _ rfl
  | transmissions i t1 t2 t3 t4 => exact regInv_setImpl s h i _ rfl
  | burst i b => exact regInv_setImpl s h i _ rfl
  | rate i r =>
    refine regInv_setImpl s h i _ ?_
    unfold setSampleRate
    by_cases h1 : r < 1 ∨ r > BASE_SAMPLE_RATE
    · rw [if_pos h1]
    · rw [if_neg h1]
      by_cases h2 : r ≠ BASE_SAMPLE_RATE
      · rw [if_pos h2]
      · rw [if_neg h2]
  | button i cb =>
    simp only [stepOp]
    unfold onButtonImpl
    by_cases hg : isStartedGlobal s
    · simp only [hg, if_true]
      exact h
    · simp only [hg, Bool.false_eq_true, if_false]
      exact regInv_setImpl s h i _ rfl
  | error i cb =>
    simp only [stepOp]
    unfold onErrorImpl
    by_cases hg : isStartedGlobal s
    · simp only [hg, if_true]
      exact h
    · simp only [hg, Bool.false_eq_true, if_false]
      exact regInv_setImpl s h i _ rfl
  | recvEvent i ev =>
    refine regInv_setImpl s h i _ ?_
    unfold receiveEvents
    by_cases hb : ev.button
    · rw [if_pos hb]
    · rw [if_neg hb]

/-- The registration invariant holds in every reachable state. -/
theorem regInv_runOps (ops : List Op) : RegInv (runOps ops) := by
  suffices h : ∀ (s : SysState), RegInv s → RegInv (ops.foldl stepOp s) by
    exact h SysState.init regInv_init
  induction ops with
  | nil => intro s hs; exact hs
  | cons op rest ih =>
    intro s hs
    exact ih (stepOp s op) (regInv_step s hs op)

/-- C3 (single-instance invariant, `timeswipe.cpp:62-65, 161-215`): in
every reachable state at most one instance has its work flag set;
`Start` on any instance fails without changing state while some
instance is Started; `Stop` while the caller is not working, or by a
non-registered caller, fails without changing state; and after the
started instance's `Stop`, a different instance's `Start` (with the
PID lock obtainable) succeeds. -/
theorem single_instance_invariant (ops : List Op) (i j : Nat)
    (pidOk : Bool) :
    (∀ k l, ((runOps ops).impls k).work = true →
      ((runOps ops).impls l).work = true → k = l) ∧
    (∀ k, EngineStarted (runOps ops) k →
      startImpl j pidOk (runOps ops) = (false, runOps ops)) ∧
    (((runOps ops).impls j).work = false →
      stopImpl j (runOps ops) = (false, runOps ops)) ∧
    ((runOps ops).startedInstance ≠ some j →
      stopImpl j (runOps ops) = (false, runOps ops)) ∧
    (EngineStarted (runOps ops) i → j ≠ i →
      (stopImpl i (runOps ops)).1 = true ∧
      (startImpl j true (stopImpl i (runOps ops)).2).1 = true) := by
  have hinv := regInv_runOps ops
  refine ⟨?_, ?_, ?_, ?_, ?_⟩
  · intro k l hk hl
    have h1 := hinv k hk
    have h2 := hinv l hl
    rw [h1] at h2
    exact Option.some_injective _ h2
  · intro k hk
    obtain ⟨_, hreg⟩ := hk
    unfold startImpl
    have hsome : (runOps ops).startedInstance.isSome = true := by
      rw [hreg]; rfl
    simp [hsome]
  · intro hw
    unfold stopImpl
    simp [hw]
  · intro hreg
    unfold stopImpl
    simp [hreg]
  · intro hk hji
    obtain ⟨hw, hreg⟩ := hk
    constructor
    · unfold stopImpl
      simp [hw, hreg]
    · have hwj : ((stopImpl i (runOps ops)).2.impls j).work = false := by
        unfold stopImpl
        simp only [hw, hreg, Bool.not_true, ne_eq, not_true_eq_false,
          decide_False, Bool.or_self, Bool.false_eq_true, if_false]
        show (Function.update (runOps ops).impls i _ j).work = false
        rw [Function.update_noteq hji]
        cases hb : ((runOps ops).impls j).work
        · rfl
        · exfalso
          have := hinv j hb
          rw [hreg] at this
          exact hji (Option.some_injective _ this).symm
      have hnone : (stopImpl i (runOps ops)).2.startedInstance = none := by
        unfold stopImpl
        simp only [hw, hreg, Bool.not_true, ne_eq, not_true_eq_false,
          decide_False, Bool.or_self, Bool.false_eq_true, if_false]
      unfold startImpl
      simp [hwj, hnone]

/-- Witness for `single_instance_invariant` at a concrete trace:
after instance 0 starts, stopping instance 0 succeeds and instance 1
can then start. -/
theorem single_instance_invariant_witness :
    (stopImpl 0 (runOps [Op.start 0 true])).1 = true ∧
    (startImpl 1 true (stopImpl 0 (runOps [Op.start 0 true])).2).1 =
      true :=
  (single_instance_invariant [Op.start 0 true] 0 1 true).2.2.2.2
    (by decide) (by decide)

/-! ## Sample-rate bounds -/

/-- C5 (`SetSampleRate`, `timeswipe.cpp:153-159`): every rate below 1
or above the base rate is rejected with the resampler slot untouched;
the base rate is accepted and removes any installed resampler; every
rate strictly between succeeds and installs a resampler targeting it. -/
theorem setSampleRate_bounds (rate : Int) (e : ImplState) :
    (rate < 1 ∨ rate > BASE_SAMPLE_RATE →
      setSampleRate rate e = (false, e)) ∧
    (setSampleRate BASE_SAMPLE_RATE e =
      (true, { e with resampler := none })) ∧
    (1 ≤ rate → rate < BASE_SAMPLE_RATE →
      setSampleRate rate e =
        (true, { e with resampler := some (rate, BASE_SAMPLE_RATE) })) := by
  refine ⟨fun h => by rw [setSampleRate, if_pos h], ?_, fun h1 h2 => ?_⟩
  · rw [setSampleRate, if_neg (by simp [BASE_SAMPLE_RATE]),
      if_neg (by simp)]
  · rw [setSampleRate, if_neg (by omega), if_pos (by omega)]

/-- Witness for `setSampleRate_bounds` at concrete rates 0, 48001 and
30000 on a fresh instance. -/
theorem setSampleRate_bounds_witness :
    setSampleRate 0 ImplState.init = (false, ImplState.init) ∧
    setSampleRate 48001 ImplState.init = (false, ImplState.init) ∧
    setSampleRate 30000 ImplState.init =
      (true, { ImplState.init with
                resampler := some (30000, BASE_SAMPLE_RATE) }) :=
  ⟨(setSampleRate_bounds 0 ImplState.init).1 (by decide),
   (setSampleRate_bounds 48001 ImplState.init).1
     (by right; decide),
   (setSampleRate_bounds 30000 ImplState.init).2.2 (by decide)
     (by decide)⟩

/-! ## Callback-registration gating -/

/-- C9 (amended; `onButton` / `onError`, `timeswipe.cpp:217-227`,
`_isStarted`, `timeswipe.cpp:245-248`): registering either callback on
any instance fails, returning false and leaving the stored callback
unchanged, if and only if some instance process-wide is registered as
started (`startedInstance` non-null) — not merely when the receiving
instance itself is Started; otherwise the callback is stored and the
call returns true. -/
theorem callback_gating (s : SysState) (i cb : Nat) :
    (s.startedInstance.isSome = true →
      onButtonImpl i cb s = (false, s) ∧ onErrorImpl i cb s = (false, s)) ∧
    (s.startedInstance = none →
      (onButtonImpl i cb s).1 = true ∧
      ((onButtonImpl i cb s).2.impls i).onButtonCb = some cb ∧
      (onErrorImpl i cb s).1 = true ∧
      ((onErrorImpl i cb s).2.impls i).onErrorCb = some cb) := by
  constructor
  · intro h
    constructor
    · rw [onButtonImpl, isStartedGlobal, if_pos h]
    · rw [onErrorImpl, isStartedGlobal, if_pos h]
  · intro h
    have hg : s.startedInstance.isSome = false := by rw [h]; rfl
    rw [onButtonImpl, onErrorImpl, isStartedGlobal, hg]
    simp [SysState.setImpl, Function.update_same]

/-- Witness for `callback_gating`: on an unstarted fresh process,
registering callback 5 on instance 0 succeeds and stores it. -/
theorem callback_gating_witness :
    (onButtonImpl 0 5 SysState.init).1 = true ∧
    ((onButtonImpl 0 5 SysState.init).2.impls 0).onButtonCb = some 5 := by
  have h := (callback_gating SysState.init 0 5).2 rfl
  exact ⟨h.1, h.2.1⟩

/-- Counterexample to C9 as stated: from the reachable state where
instance 0 is started, instance 1 is not in the Started state, yet
registering its button callback fails (and stores nothing) — the gate
tests the global registration, not the receiving engine's state. -/
theorem callback_gating_counterexample :
    ¬ EngineStarted (runOps [Op.start 0 true]) 1 ∧
    (onButtonImpl 1 5 (runOps [Op.start 0 true])).1 = false ∧
    ((onButtonImpl 1 5 (runOps [Op.start 0 true])).2.impls 1).onButtonCb =
      none ∧
    (onErrorImpl 1 5 (runOps [Op.start 0 true])).1 = false :=
  ⟨by decide, rfl, rfl, rfl⟩

/-! ## Equal-channel-length invariant -/

/-- C6 (amended; `SensorsData`, `timeswipe.cpp:16-60`): the bulk
mutating operations — append of two equal-length frames, clear,
erase_back for any count, and erase_front within bounds — preserve the
equal-channel-length invariant; nothing in the container checks the
invariant, and single-channel mutable access can break it. -/
theorem frame_invariant_preservation :
    (∀ a b : SensorsData, a.valid → b.valid → (a.append b).valid) ∧
    (∀ a : SensorsData, a.clear.valid) ∧
    (∀ (a : SensorsData) (num : Nat), a.valid → (a.erase_back num).valid) ∧
    (∀ (a r : SensorsData) (num : Nat), a.erase_front num = some r →
      a.valid → r.valid ∧ r.DataSize = a.DataSize - num) := by
  refine ⟨fun a b ha hb => append_valid ha hb,
    fun a => by simp [SensorsData.clear, SensorsData.valid], ?_, ?_⟩
  · intro a num ha
    obtain ⟨l1, l2, l3⟩ := ha
    unfold SensorsData.erase_back SensorsData.valid
    simp only [resizeList_length]
    rw [l1, l2, l3]
    exact ⟨rfl, rfl, rfl⟩
  · intro a r num hsome ha
    obtain ⟨l1, l2, l3⟩ := ha
    unfold SensorsData.erase_front at hsome
    split at hsome
    · cases hsome
      refine ⟨?_, ?_⟩
      · unfold SensorsData.valid
        simp only [List.length_drop]
        rw [l1, l2, l3]
        exact ⟨rfl, rfl, rfl⟩
      · simp [SensorsData.DataSize, List.length_drop]
    · cases hsome

/-- Witness for `frame_invariant_preservation`: appending two concrete
equal-length frames yields an equal-length frame. -/
theorem frame_invariant_preservation_witness :
    SensorsData.valid ⟨[1], [2], [3], [4]⟩ ∧
    SensorsData.valid
      ((⟨[1], [2], [3], [4]⟩ : SensorsData).append ⟨[5], [6], [7], [8]⟩) :=
  ⟨by decide,
    frame_invariant_preservation.1 ⟨[1], [2], [3], [4]⟩
      ⟨[5], [6], [7], [8]⟩ (by decide) (by decide)⟩

/-- Counterexample to C6 as stated: pushing one sample into a single
channel through the mutable reference of `operator[]` turns an
equal-length frame into an unequal one — this mutation is neither
checked nor invariant-preserving. -/
theorem frame_invariant_counterexample :
    SensorsData.valid SensorsData.mk0 ∧
    ¬ SensorsData.valid (SensorsData.pushSample SensorsData.mk0 0 1) := by
  decide

/-! ## Gain / transmission reciprocal -/

/-- C8 (`SetSensorGains` / `SetSensorTransmissions`,
`timeswipe.cpp:138-150`): each stored per-channel factor is `1.0`
divided by the supplied value; for nonzero finite G that is exactly
`1/G` (floats idealized as exact rationals), and for G = 0 the
division yields positive infinity — a well-defined value, the setter
is a total function and cannot fault. -/
theorem gain_transmission_reciprocal (g1 g2 g3 g4 t1 t2 t3 t4 : FVal)
    (e : ImplState) :
    ((setSensorGains g1 g2 g3 g4 e).Rec.gain0 = FVal.div FVal.one g1 ∧
     (setSensorGains g1 g2 g3 g4 e).Rec.gain1 = FVal.div FVal.one g2 ∧
     (setSensorGains g1 g2 g3 g4 e).Rec.gain2 = FVal.div FVal.one g3 ∧
     (setSensorGains g1 g2 g3 g4 e).Rec.gain3 = FVal.div FVal.one g4) ∧
    ((setSensorTransmissions t1 t2 t3 t4 e).Rec.transmission0 =
        FVal.div FVal.one t1 ∧
     (setSensorTransmissions t1 t2 t3 t4 e).Rec.transmission1 =
        FVal.div FVal.one t2 ∧
     (setSensorTransmissions t1 t2 t3 t4 e).Rec.transmission2 =
        FVal.div FVal.one t3 ∧
     (setSensorTransmissions t1 t2 t3 t4 e).Rec.transmission3 =
        FVal.div FVal.one t4) ∧
    (∀ q : ℚ, q ≠ 0 → FVal.div FVal.one (FVal.fin q) = FVal.fin (1 / q)) ∧
    (FVal.div FVal.one (FVal.fin 0) = FVal.inf) := by
  refine ⟨⟨rfl, rfl, rfl, rfl⟩, ⟨rfl, rfl, rfl, rfl⟩, ?_, ?_⟩
  · intro q hq
    simp [FVal.div, FVal.one, hq]
  · norm_num [FVal.div, FVal.one]

/-- Witness for `gain_transmission_reciprocal`: setting gains
(2, 0, 4, 8) stores factor 1/2 for channel 0 and infinity — not a
fault — for the zero gain on channel 1. -/
theorem gain_transmission_reciprocal_witness :
    (setSensorGains (FVal.fin 2) (FVal.fin 0) (FVal.fin 4) (FVal.fin 8)
        ImplState.init).Rec.gain0 = FVal.fin (1 / 2) ∧
    (setSensorGains (FVal.fin 2) (FVal.fin 0) (FVal.fin 4) (FVal.fin 8)
        ImplState.init).Rec.gain1 = FVal.inf := by
  have h := gain_transmission_reciprocal (FVal.fin 2) (FVal.fin 0)
    (FVal.fin 4) (FVal.fin 8) (FVal.fin 1) (FVal.fin 1) (FVal.fin 1)
    (FVal.fin 1) ImplState.init
  constructor
  · rw [h.1.1, h.2.2.1 2 (by norm_num)]
  · rw [h.1.2.1, h.2.2.2]

/-! ## Settings request/response FIFO -/

/-- Clearing already-empty SPI queues leaves the instance unchanged. -/
theorem impl_queues_eta (e : ImplState) (hin : e.inSPI = [])
    (hout : e.outSPI = []) :
    ({ e with inSPI := ([] : List (Nat × String)),
              outSPI := ([] : List (String × String)) } : ImplState) = e := by
  cases e
  simp_all

/-- One `Settings` call on a stopped instance with empty SPI queues:
the request is pushed, serviced in-line, and its (response, error)
pair returned, with the instance back in its original state. -/
theorem settingsCall_stopped (eg es : String → String × String)
    (d : Nat) (req : String) (e : ImplState) (hw : e.work = false)
    (hin : e.inSPI = []) (hout : e.outSPI = []) :
    settingsCall eg es d req e = some (dispatchSPI eg es (d, req), e) := by
  have heta := impl_queues_eta e hin hout
  simp only [settingsCall, processSPIRequests, pushBounded, hw, hin, hout,
    SPI_CAPACITY]
  norm_num
  rw [← hw]
  exact heta

/-- C7 (`Settings` while stopped, `timeswipe.cpp:229-243, 257-264`):
for every sequence of requests issued on a stopped instance starting
with empty command queues, each request is pushed and serviced in-line
and exactly one (response, error) pair is produced per request, in
request order. -/
theorem settings_fifo (eg es : String → String × String) (e : ImplState)
    (reqs : List (Nat × String)) (hw : e.work = false)
    (hin : e.inSPI = []) (hout : e.outSPI = []) :
    runSettings eg es e reqs = some (reqs.map (dispatchSPI eg es), e) := by
  induction reqs with
  | nil => rfl
  | cons p rest ih =>
    obtain ⟨d, req⟩ := p
    simp [runSettings, settingsCall_stopped eg es d req e hw hin hout, ih]

/-- Witness for `settings_fifo`: two concrete requests on a fresh
stopped instance yield their two responses in order. -/
theorem settings_fifo_witness :
    runSettings (fun s => (s, "")) (fun s => (s, "werr")) ImplState.init
        [(0, "ga"), (1, "sb")] =
      some ([("ga", ""), ("sb", "werr")], ImplState.init) := by
  have h := settings_fifo (fun s => (s, "")) (fun s => (s, "werr"))
    ImplState.init [(0, "ga"), (1, "sb")] rfl rfl rfl
  simpa [dispatchSPI] using h

/-! ## erase_back / erase_front bounds -/

/-- In-range wrapping subtraction is ordinary subtraction. -/
theorem wrapSub_of_le {a b : Nat} (hb : b ≤ a)
    (ha : a < SensorsData.USIZE) : SensorsData.wrapSub a b = a - b := by
  have h64 : SensorsData.USIZE = 18446744073709551616 := by
    norm_num [SensorsData.USIZE]
  unfold SensorsData.wrapSub
  rw [h64] at ha ⊢
  omega

/-- Out-of-range wrapping subtraction wraps modulo `2 ^ 64`. -/
theorem wrapSub_of_gt {a b : Nat} (hab : a < b)
    (hb : b < SensorsData.USIZE) :
    SensorsData.wrapSub a b = a + SensorsData.USIZE - b := by
  have h64 : SensorsData.USIZE = 18446744073709551616 := by
    norm_num [SensorsData.USIZE]
  unfold SensorsData.wrapSub
  rw [h64] at hb ⊢
  omega

/-- C10 (`erase_back` / `erase_front`, `timeswipe.cpp:52-60`): with
`num ≤ L` (the per-channel length), `erase_back num` removes exactly
`num` samples from the back of each channel, leaving the front `L - num`
samples; with `num > L` the `size() - num` subtraction wraps modulo
`2 ^ 64`, resizing every channel to the astronomically large length
`L + 2 ^ 64 - num` instead of failing cleanly; `erase_front num` with
`num > L` runs past the end (undefined behaviour), while within bounds
it drops exactly `num` front samples. -/
theorem erase_back_bounds (f : SensorsData) (num : Nat) (hf : f.valid)
    (hL : f.DataSize < SensorsData.USIZE)
    (hnum : num < SensorsData.USIZE) :
    (num ≤ f.DataSize →
      (f.erase_back num).DataSize = f.DataSize - num ∧
      (f.erase_back num).ch0 = f.ch0.take (f.DataSize - num)) ∧
    (f.DataSize < num →
      (f.erase_back num).DataSize = f.DataSize + SensorsData.USIZE - num ∧
      f.DataSize < (f.erase_back num).DataSize) ∧
    (f.DataSize < num → f.erase_front num = none) ∧
    (num ≤ f.DataSize →
      ∃ r, f.erase_front num = some r ∧ r.DataSize = f.DataSize - num ∧
        r.ch0 = f.ch0.drop num) := by
  obtain ⟨l1, l2, l3⟩ := hf
  refine ⟨fun hle => ?_, fun hgt => ?_, fun hgt => ?_, fun hle => ?_⟩
  · have hws : SensorsData.wrapSub f.ch0.length num =
        f.ch0.length - num := wrapSub_of_le hle hL
    constructor
    · show (SensorsData.resizeList f.ch0
        (SensorsData.wrapSub f.ch0.length num)).length = _
      rw [resizeList_length, hws]
      rfl
    · show SensorsData.resizeList f.ch0
        (SensorsData.wrapSub f.ch0.length num) = _
      rw [hws, SensorsData.resizeList, if_pos (Nat.sub_le _ _)]
      rfl
  · have hws : SensorsData.wrapSub f.ch0.length num =
        f.ch0.length + SensorsData.USIZE - num := wrapSub_of_gt hgt hnum
    have hds : (f.erase_back num).DataSize =
        f.ch0.length + SensorsData.USIZE - num := by
      show (SensorsData.resizeList f.ch0
        (SensorsData.wrapSub f.ch0.length num)).length = _
      rw [resizeList_length, hws]
    refine ⟨hds, ?_⟩
    rw [hds]
    have h64 : SensorsData.USIZE = 18446744073709551616 := by
      norm_num [SensorsData.USIZE]
    unfold SensorsData.DataSize at *
    omega
  · rw [SensorsData.erase_front, if_neg]
    unfold SensorsData.DataSize at hgt
    omega
  · refine ⟨⟨f.ch0.drop num, f.ch1.drop num, f.ch2.drop num,
      f.ch3.drop num⟩, ?_, ?_, rfl⟩
    · rw [SensorsData.erase_front, if_pos]
      unfold SensorsData.DataSize at hle
      omega
    · show (f.ch0.drop num).length = _
      rw [List.length_drop]
      rfl

/-- Witness for `erase_back_bounds` on a two-sample frame: removing 1
sample leaves 1; removing 3 wraps to length `2 + 2 ^ 64 - 3`, and
`erase_front 3` is out of bounds. -/
theorem erase_back_bounds_witness :
    ((⟨[1, 2], [3, 4], [5, 6], [7, 8]⟩ : SensorsData).erase_back 1).DataSize
        = 1 ∧
    ((⟨[1, 2], [3, 4], [5, 6], [7, 8]⟩ : SensorsData).erase_back 3).DataSize
        = 2 + SensorsData.USIZE - 3 ∧
    (⟨[1, 2], [3, 4], [5, 6], [7, 8]⟩ : SensorsData).erase_front 3 =
      none := by
  have h1 := erase_back_bounds ⟨[1, 2], [3, 4], [5, 6], [7, 8]⟩ 1
    (by decide) (by decide) (by decide)
  have h3 := erase_back_bounds ⟨[1, 2], [3, 4], [5, 6], [7, 8]⟩ 3
    (by decide) (by decide) (by decide)
  exact ⟨(h1.1 (by decide)).1, (h3.2.1 (by decide)).1,
    h3.2.2.1 (by decide)⟩

end TimeSwipe
